import Mathlib

/-!
Verification of the methadone-monitoring core (`methadone_monitoring.py`).

The Python module is embedded shallowly:

* `calculate_methadone_concentration` works on floating-point numbers via
  `np.exp`; it is embedded over `ℝ` with `Real.exp`.  The source's decay
  constant is the literal `0.693` (not `Real.log 2`), and the source applies
  `max(concentration * 1000, 0)` at the end; both are kept verbatim.
* `confidence_interval`, `evaluate_metabolism_probabilities` and
  `assess_risk` involve only field arithmetic and comparisons, so they are
  embedded over `ℚ`, keeping them executable and decidable.
* The dictionaries returned by `evaluate_metabolism_probabilities` are
  embedded as a record with one field per French label occurring in the
  source; a key absent from a returned dictionary is probability `0`
  (field `tresLente` below for the three ratio branches).
* The source strings returned by `assess_risk` become the constructors of
  `RiskLabel`, in source order.
-/

namespace MethadoneMonitoring

/-- Embedding of `calculate_methadone_concentration(dose, weight, half_life,
time_since_last_dose, steady_state)`.  `volume_distribution = 4`; in
steady-state mode the accumulation factor `1 / (1 - exp(-0.693*24/half_life))`
multiplies the dose; first-order decay `exp(-0.693 * t / half_life)` applies in
both modes; the result is `max(concentration * 1000, 0)`.  (The source also
computes a local `clearance` value that it never uses; it is omitted.) -/
noncomputable def calculate_methadone_concentration (dose weight half_life time_since_last_dose : ℝ)
    (steady_state : Bool) : ℝ :=
  let volume_distribution : ℝ := 4
  if steady_state then
    let accumulation_factor := 1 / (1 - Real.exp (-0.693 * 24 / half_life))
    let concentration := (dose * accumulation_factor / (volume_distribution * weight)) *
      Real.exp (-0.693 * time_since_last_dose / half_life)
    max (concentration * 1000) 0
  else
    let concentration := (dose / (volume_distribution * weight)) *
      Real.exp (-0.693 * time_since_last_dose / half_life)
    max (concentration * 1000) 0

/-- Embedding of `confidence_interval(value, error_percentage)`: returns
`(value - margin, value + margin)` with `margin = value * (pct / 100)`.
The Python default `error_percentage=20` is passed explicitly at call sites. -/
def confidence_interval (value error_percentage : ℚ) : ℚ × ℚ :=
  let error_margin := value * (error_percentage / 100)
  (value - error_margin, value + error_margin)

/-- The probability dictionary returned by
`evaluate_metabolism_probabilities`, one field per French key of the source;
a key absent from a returned dictionary is probability `0`. -/
structure MetabolismProbabilities where
  tresLente : ℚ
  lent : ℚ
  normal : ℚ
  rapide : ℚ
deriving DecidableEq

/-- Sum of the probabilities in a `MetabolismProbabilities` record. -/
def MetabolismProbabilities.sum (p : MetabolismProbabilities) : ℚ :=
  p.tresLente + p.lent + p.normal + p.rapide

/-- Embedding of `evaluate_metabolism_probabilities(methadone_measured,
eddp_measured)`: if `eddp_measured == 0` return the degenerate distribution on
the very-slow label; otherwise bin `ratio = methadone_measured / eddp_measured`
by `ratio > 2.5`, `1.0 <= ratio <= 2.5`, else, exactly as the source's
`if`/`elif`/`else` chain. -/
def evaluate_metabolism_probabilities (methadone_measured eddp_measured : ℚ) :
    MetabolismProbabilities :=
  if eddp_measured = 0 then
    ⟨1.0, 0.0, 0.0, 0.0⟩
  else
    let ratio := methadone_measured / eddp_measured
    if ratio > 2.5 then
      ⟨0, 0.8, 0.15, 0.05⟩
    else if 1.0 ≤ ratio ∧ ratio ≤ 2.5 then
      ⟨0, 0.2, 0.7, 0.1⟩
    else
      ⟨0, 0.05, 0.2, 0.75⟩

/-- The three result strings of `assess_risk`, as an enumeration in source
order: underdose, overdose, therapeutic. -/
inductive RiskLabel where
  | sousDosage
  | surdosage
  | therapeutique
deriving DecidableEq

/-- Embedding of `assess_risk(methadone_measured, expected_methadone)`:
`(lower, upper) = confidence_interval(expected, 20)`; `measured < lower` gives
underdose, else `measured > upper` gives overdose, else therapeutic. -/
def assess_risk (methadone_measured expected_methadone : ℚ) : RiskLabel :=
  let bounds := confidence_interval expected_methadone 20
  if methadone_measured < bounds.1 then RiskLabel.sousDosage
  else if methadone_measured > bounds.2 then RiskLabel.surdosage
  else RiskLabel.therapeutique

/-! ### Helper lemmas about the concentration model -/

/-- For positive dose and weight the single-dose clamp is inactive. -/
lemma calc_single_eq (dose weight half_life t : ℝ) (hd : 0 < dose) (hw : 0 < weight) :
    calculate_methadone_concentration dose weight half_life t false =
      dose / (4 * weight) * Real.exp (-0.693 * t / half_life) * 1000 := by
  unfold calculate_methadone_concentration
  simp only [Bool.false_eq_true, if_false]
  exact max_eq_left (by positivity)

/-- The steady-state accumulation factor exceeds `1` for positive half-life. -/
lemma accumulation_factor_gt_one (half_life : ℝ) (hh : 0 < half_life) :
    1 < 1 / (1 - Real.exp (-0.693 * 24 / half_life)) := by
  have hx : -0.693 * 24 / half_life < 0 := by
    apply div_neg_of_neg_of_pos _ hh
    norm_num
  have he1 : Real.exp (-0.693 * 24 / half_life) < 1 := Real.exp_lt_one_iff.mpr hx
  have he0 : 0 < Real.exp (-0.693 * 24 / half_life) := Real.exp_pos _
  have hden : 0 < 1 - Real.exp (-0.693 * 24 / half_life) := by linarith
  rw [lt_div_iff₀ hden]
  linarith

/-- For positive dose, weight and half-life the steady-state clamp is
inactive. -/
lemma calc_steady_eq (dose weight half_life t : ℝ) (hd : 0 < dose) (hw : 0 < weight)
    (hh : 0 < half_life) :
    calculate_methadone_concentration dose weight half_life t true =
      dose * (1 / (1 - Real.exp (-0.693 * 24 / half_life))) / (4 * weight) *
        Real.exp (-0.693 * t / half_life) * 1000 := by
  have hacc : 0 < 1 / (1 - Real.exp (-0.693 * 24 / half_life)) :=
    lt_trans one_pos (accumulation_factor_gt_one half_life hh)
  unfold calculate_methadone_concentration
  simp only [if_true]
  exact max_eq_left (by positivity)

/-! ### Claims -/

/-- C1: for every positive dose, weight and half-life,
`calculate_methadone_concentration` at `time_since_last_dose = 0` in
single-dose mode returns exactly `dose * 1000 / (4 * weight)`. -/
theorem c1_single_dose_at_zero (dose weight half_life : ℝ) (hd : 0 < dose) (hw : 0 < weight)
    (hh : 0 < half_life) :
    calculate_methadone_concentration dose weight half_life 0 false =
      dose * 1000 / (4 * weight) := by
  rw [calc_single_eq dose weight half_life 0 hd hw]
  rw [mul_zero, zero_div, Real.exp_zero]
  ring

/-- C1 witness at dose 60, weight 70, half-life 24. -/
theorem c1_single_dose_at_zero_witness :
    (0 : ℝ) < 60 ∧ (0 : ℝ) < 70 ∧ (0 : ℝ) < 24 ∧
      calculate_methadone_concentration 60 70 24 0 false = 60 * 1000 / (4 * 70) :=
  ⟨by norm_num, by norm_num, by norm_num,
    c1_single_dose_at_zero 60 70 24 (by norm_num) (by norm_num) (by norm_num)⟩

/-- C2 counterexample: the code's decay constant is the literal `0.693`, not
`ln 2`, so at `t = half_life` the single-dose concentration is NOT exactly
half its value at `t = 0`: with dose 4, weight 1, half-life 1, the value at
`t = 1` differs from half the value at `t = 0`. -/
theorem c2_counterexample :
    calculate_methadone_concentration 4 1 1 1 false ≠
      calculate_methadone_concentration 4 1 1 0 false / 2 := by
  rw [calc_single_eq 4 1 1 1 (by norm_num) (by norm_num),
    calc_single_eq 4 1 1 0 (by norm_num) (by norm_num)]
  have h2 : Real.exp (-Real.log 2) = 1 / 2 := by
    rw [Real.exp_neg, Real.exp_log (by norm_num : (0 : ℝ) < 2)]
    norm_num
  have hlt : -Real.log 2 < -(0.693 : ℝ) := by
    have := Real.log_two_gt_d9
    norm_num at this ⊢
    linarith
  have hgt : (1 : ℝ) / 2 < Real.exp (-0.693) := by
    rw [← h2]
    exact Real.exp_lt_exp.mpr hlt
  intro h
  rw [mul_zero, zero_div, Real.exp_zero] at h
  norm_num at h
  nlinarith [h, hgt]

/-- C2 amended: the single-dose estimate equals
`(dose / (4 * weight)) * exp(-0.693 * t / half_life) * 1000` (the code uses
the literal decay constant `0.693`, an approximation of `ln 2`); at
`t = half_life` it equals `exp(-0.693)` times (approximately, but not
exactly, half) its value at `t = 0`. -/
theorem c2_single_dose_formula (dose weight half_life t : ℝ) (hd : 0 < dose) (hw : 0 < weight)
    (hh : 0 < half_life) (ht : 0 ≤ t) :
    calculate_methadone_concentration dose weight half_life t false =
      dose / (4 * weight) * Real.exp (-0.693 * t / half_life) * 1000 ∧
    calculate_methadone_concentration dose weight half_life half_life false =
      Real.exp (-0.693) * calculate_methadone_concentration dose weight half_life 0 false := by
  refine ⟨calc_single_eq dose weight half_life t hd hw, ?_⟩
  rw [calc_single_eq dose weight half_life half_life hd hw,
    calc_single_eq dose weight half_life 0 hd hw]
  rw [mul_zero, zero_div, Real.exp_zero, mul_div_assoc, div_self hh.ne']
  ring

/-- C2 amended witness at dose 60, weight 70, half-life 24, t = 12. -/
theorem c2_single_dose_formula_witness :
    (0 : ℝ) < 60 ∧ (0 : ℝ) < 70 ∧ (0 : ℝ) < 24 ∧ (0 : ℝ) ≤ 12 ∧
      (calculate_methadone_concentration 60 70 24 12 false =
        60 / (4 * 70) * Real.exp (-0.693 * 12 / 24) * 1000 ∧
      calculate_methadone_concentration 60 70 24 24 false =
        Real.exp (-0.693) * calculate_methadone_concentration 60 70 24 0 false) :=
  ⟨by norm_num, by norm_num, by norm_num, by norm_num,
    c2_single_dose_formula 60 70 24 12 (by norm_num) (by norm_num) (by norm_num) (by norm_num)⟩

/-- C3: for every positive dose, weight, half-life and non-negative time, the
steady-state accumulation factor is at least `1`, and the steady-state
estimate is at least the single-dose estimate. -/
theorem c3_steady_state_dominates (dose weight half_life t : ℝ) (hd : 0 < dose) (hw : 0 < weight)
    (hh : 0 < half_life) (ht : 0 ≤ t) :
    1 ≤ 1 / (1 - Real.exp (-0.693 * 24 / half_life)) ∧
    calculate_methadone_concentration dose weight half_life t false ≤
      calculate_methadone_concentration dose weight half_life t true := by
  have hacc := accumulation_factor_gt_one half_life hh
  refine ⟨hacc.le, ?_⟩
  rw [calc_single_eq dose weight half_life t hd hw,
    calc_steady_eq dose weight half_life t hd hw hh]
  have hE : 0 < Real.exp (-0.693 * t / half_life) := Real.exp_pos _
  gcongr
  exact le_mul_of_one_le_right hd.le hacc.le

/-- C3 witness at dose 60, weight 70, half-life 24, t = 12. -/
theorem c3_steady_state_dominates_witness :
    (0 : ℝ) < 60 ∧ (0 : ℝ) < 70 ∧ (0 : ℝ) < 24 ∧ (0 : ℝ) ≤ 12 ∧
      (1 ≤ 1 / (1 - Real.exp (-0.693 * 24 / 24)) ∧
      calculate_methadone_concentration 60 70 24 12 false ≤
        calculate_methadone_concentration 60 70 24 12 true) :=
  ⟨by norm_num, by norm_num, by norm_num, by norm_num,
    c3_steady_state_dominates 60 70 24 12 (by norm_num) (by norm_num) (by norm_num) (by norm_num)⟩

/-- C4: for every positive dose, weight and half-life and either mode flag,
`calculate_methadone_concentration` is strictly decreasing in the time since
the last dose. -/
theorem c4_strictly_decreasing (dose weight half_life t1 t2 : ℝ) (steady_state : Bool)
    (hd : 0 < dose) (hw : 0 < weight) (hh : 0 < half_life) (hlt : t1 < t2) :
    calculate_methadone_concentration dose weight half_life t2 steady_state <
      calculate_methadone_concentration dose weight half_life t1 steady_state := by
  have hE : Real.exp (-0.693 * t2 / half_life) < Real.exp (-0.693 * t1 / half_life) := by
    apply Real.exp_lt_exp.mpr
    apply div_lt_div_of_pos_right _ hh
    nlinarith
  cases steady_state with
  | false =>
    rw [calc_single_eq dose weight half_life t1 hd hw,
      calc_single_eq dose weight half_life t2 hd hw]
    have hK : 0 < dose / (4 * weight) := by positivity
    nlinarith
  | true =>
    rw [calc_steady_eq dose weight half_life t1 hd hw hh,
      calc_steady_eq dose weight half_life t2 hd hw hh]
    have hacc : 0 < 1 / (1 - Real.exp (-0.693 * 24 / half_life)) :=
      lt_trans one_pos (accumulation_factor_gt_one half_life hh)
    have hK : 0 < dose * (1 / (1 - Real.exp (-0.693 * 24 / half_life))) / (4 * weight) := by
      positivity
    nlinarith

/-- C4 witness: at dose 60, weight 70, half-life 24, steady-state, the
estimate at t = 24 is below the estimate at t = 12. -/
theorem c4_strictly_decreasing_witness :
    (0 : ℝ) < 60 ∧ (0 : ℝ) < 70 ∧ (0 : ℝ) < 24 ∧ (12 : ℝ) < 24 ∧
      calculate_methadone_concentration 60 70 24 24 true <
        calculate_methadone_concentration 60 70 24 12 true :=
  ⟨by norm_num, by norm_num, by norm_num, by norm_num,
    c4_strictly_decreasing 60 70 24 12 24 true (by norm_num) (by norm_num) (by norm_num)
      (by norm_num)⟩

/-- C9 counterexample: called directly with the non-positive dose `-60`
(weight 70, half-life 24, t = 0, single-dose), the code does not fail with any
`InvalidParameter` condition: it returns the numeric result `0` (the final
`max(..., 0)` clamp floors the negative concentration). -/
theorem c9_counterexample :
    calculate_methadone_concentration (-60) 70 24 0 false = 0 := by
  unfold calculate_methadone_concentration
  simp only [Bool.false_eq_true, if_false]
  apply max_eq_right
  rw [mul_zero, zero_div, Real.exp_zero]
  norm_num

/-- C9 amended: `calculate_methadone_concentration` performs no input
validation and never signals an error; called directly with a non-positive
dose (and positive weight and half-life) it returns the numeric result `0` in
either mode, because the final `max(..., 0)` clamp floors the non-positive
concentration. -/
theorem c9_no_validation (dose weight half_life t : ℝ) (steady_state : Bool) (hd : dose ≤ 0)
    (hw : 0 < weight) (hh : 0 < half_life) :
    calculate_methadone_concentration dose weight half_life t steady_state = 0 := by
  have hE : 0 < Real.exp (-0.693 * t / half_life) := Real.exp_pos _
  cases steady_state with
  | false =>
    unfold calculate_methadone_concentration
    simp only [Bool.false_eq_true, if_false]
    apply max_eq_right
    have h1 : dose / (4 * weight) ≤ 0 :=
      div_nonpos_iff.mpr (Or.inr ⟨hd, by positivity⟩)
    nlinarith
  | true =>
    unfold calculate_methadone_concentration
    simp only [if_true]
    apply max_eq_right
    have hacc : 0 < 1 / (1 - Real.exp (-0.693 * 24 / half_life)) :=
      lt_trans one_pos (accumulation_factor_gt_one half_life hh)
    have h1 : dose * (1 / (1 - Real.exp (-0.693 * 24 / half_life))) ≤ 0 :=
      mul_nonpos_of_nonpos_of_nonneg hd hacc.le
    have h2 : dose * (1 / (1 - Real.exp (-0.693 * 24 / half_life))) / (4 * weight) ≤ 0 :=
      div_nonpos_iff.mpr (Or.inr ⟨h1, by positivity⟩)
    nlinarith

/-- C9 amended witness: dose `-60`, weight 70, half-life 24, t = 12,
steady-state mode returns `0`. -/
theorem c9_no_validation_witness :
    (-60 : ℝ) ≤ 0 ∧ (0 : ℝ) < 70 ∧ (0 : ℝ) < 24 ∧
      calculate_methadone_concentration (-60) 70 24 12 true = 0 :=
  ⟨by norm_num, by norm_num, by norm_num,
    c9_no_validation (-60) 70 24 12 true (by norm_num) (by norm_num) (by norm_num)⟩

/-- Unfolding lemma for `assess_risk`. -/
lemma assess_risk_def (m e : ℚ) :
    assess_risk m e =
      if m < (confidence_interval e 20).1 then RiskLabel.sousDosage
      else if m > (confidence_interval e 20).2 then RiskLabel.surdosage
      else RiskLabel.therapeutique := rfl

/-- C5 counterexample: for the negative value `-1`,
`confidence_interval(-1, 20) = (-0.8, -1.2)` and the lower bound `-0.8` is
strictly greater than `-1`, so `low <= v <= high` does not hold for every
value. -/
theorem c5_counterexample :
    ¬((confidence_interval (-1) 20).1 ≤ -1 ∧ (-1 : ℚ) ≤ (confidence_interval (-1) 20).2) := by
  norm_num [confidence_interval]

/-- C5 amended: `confidence_interval(v, 20)` returns exactly
`(0.8 * v, 1.2 * v)` for every value `v`; the bounds satisfy
`low <= v <= high` for every non-negative `v` (for negative `v` they are
reversed around `v`). -/
theorem c5_confidence_interval (v : ℚ) :
    confidence_interval v 20 = (0.8 * v, 1.2 * v) ∧
      (0 ≤ v → (confidence_interval v 20).1 ≤ v ∧ v ≤ (confidence_interval v 20).2) := by
  unfold confidence_interval
  refine ⟨?_, fun hv => ⟨?_, ?_⟩⟩
  · rw [Prod.mk.injEq]
    norm_num
    constructor <;> ring
  · nlinarith
  · nlinarith

/-- C5 amended witness at `v = 5`. -/
theorem c5_confidence_interval_witness :
    confidence_interval 5 20 = (0.8 * 5, 1.2 * 5) ∧ (0 : ℚ) ≤ 5 ∧
      (confidence_interval 5 20).1 ≤ 5 ∧ (5 : ℚ) ≤ (confidence_interval 5 20).2 :=
  ⟨(c5_confidence_interval 5).1, by norm_num, (c5_confidence_interval 5).2 (by norm_num)⟩

/-- C6: for all non-negative measured methadone and EDDP (including
`eddp_measured = 0`), the probabilities returned by
`evaluate_metabolism_probabilities` are all non-negative and sum to exactly
`1`. -/
theorem c6_probabilities_valid (m e : ℚ) (hm : 0 ≤ m) (he : 0 ≤ e) :
    (0 ≤ (evaluate_metabolism_probabilities m e).tresLente ∧
      0 ≤ (evaluate_metabolism_probabilities m e).lent ∧
      0 ≤ (evaluate_metabolism_probabilities m e).normal ∧
      0 ≤ (evaluate_metabolism_probabilities m e).rapide) ∧
    (evaluate_metabolism_probabilities m e).sum = 1 := by
  unfold evaluate_metabolism_probabilities MetabolismProbabilities.sum
  dsimp only
  split_ifs <;> norm_num

/-- C6 witness at measured methadone 350 and EDDP 120. -/
theorem c6_probabilities_valid_witness :
    (0 : ℚ) ≤ 350 ∧ (0 : ℚ) ≤ 120 ∧
      ((0 ≤ (evaluate_metabolism_probabilities 350 120).tresLente ∧
        0 ≤ (evaluate_metabolism_probabilities 350 120).lent ∧
        0 ≤ (evaluate_metabolism_probabilities 350 120).normal ∧
        0 ≤ (evaluate_metabolism_probabilities 350 120).rapide) ∧
      (evaluate_metabolism_probabilities 350 120).sum = 1) :=
  ⟨by norm_num, by norm_num, c6_probabilities_valid 350 120 (by norm_num) (by norm_num)⟩

/-- C7: when `eddp_measured = 0`, classification does not fail: for every
measured methadone value the returned distribution puts probability `1` on
the very-slow-metabolizer label and `0` on every other label. -/
theorem c7_eddp_zero_defined (m : ℚ) :
    evaluate_metabolism_probabilities m 0 = ⟨1, 0, 0, 0⟩ := by
  unfold evaluate_metabolism_probabilities
  norm_num

/-- C8 counterexample: at measured `-9` and expected `-10` the bounds are
`(low, high) = (-0.8 * 10, -1.2 * 10) = (-8, -12)`; the measured value
exceeds `high` yet the code returns the underdose label, not the overdose
label, so "overdose iff measured > high" fails for negative expected
values. -/
theorem c8_counterexample :
    (confidence_interval (-10) 20).2 < -9 ∧
      assess_risk (-9) (-10) ≠ RiskLabel.surdosage := by
  rw [assess_risk_def]
  norm_num [confidence_interval]
  decide

/-- C8 amended: for every measured value and every NON-NEGATIVE expected
value, with `(low, high) = confidence_interval(expected, 20)`: the result is
the underdose label iff `measured < low`, the overdose label iff
`measured > high`, and the therapeutic label iff `low ≤ measured ≤ high`
(boundaries inclusive). -/
theorem c8_risk_classification (m e : ℚ) (he : 0 ≤ e) :
    (assess_risk m e = RiskLabel.sousDosage ↔ m < (confidence_interval e 20).1) ∧
    (assess_risk m e = RiskLabel.surdosage ↔ (confidence_interval e 20).2 < m) ∧
    (assess_risk m e = RiskLabel.therapeutique ↔
      (confidence_interval e 20).1 ≤ m ∧ m ≤ (confidence_interval e 20).2) := by
  have hlh : (confidence_interval e 20).1 ≤ (confidence_interval e 20).2 := by
    unfold confidence_interval
    simp only
    linarith
  rw [assess_risk_def]
  split_ifs with h1 h2
  · refine ⟨by simp [h1], ?_, ?_⟩
    · simp only [reduceCtorEq, false_iff, not_lt]
      linarith
    · simp only [reduceCtorEq, false_iff, not_and, not_le]
      intro hA
      exact absurd h1 (not_lt.mpr hA)
  · refine ⟨by simp [h1], by simp [h2], ?_⟩
    · simp only [reduceCtorEq, false_iff, not_and, not_le]
      intro hA
      exact h2
  · refine ⟨by simp [h1], by simp [h2], ?_⟩
    simp only [true_iff]
    exact ⟨not_lt.mp h1, not_lt.mp h2⟩

/-- C8 amended witness at measured 350 and expected 300 (bounds 240 and
360): therapeutic. -/
theorem c8_risk_classification_witness :
    (0 : ℚ) ≤ 300 ∧
      ((assess_risk 350 300 = RiskLabel.sousDosage ↔ (350 : ℚ) < (confidence_interval 300 20).1) ∧
      (assess_risk 350 300 = RiskLabel.surdosage ↔ (confidence_interval 300 20).2 < 350) ∧
      (assess_risk 350 300 = RiskLabel.therapeutique ↔
        (confidence_interval 300 20).1 ≤ 350 ∧ (350 : ℚ) ≤ (confidence_interval 300 20).2)) :=
  ⟨by norm_num, c8_risk_classification 350 300 (by norm_num)⟩

/-- C10: `evaluate_metabolism_probabilities` is scale-invariant: scaling both
measurements by the same positive factor leaves the returned distribution
unchanged, because only the ratio `methadone / eddp` is examined. -/
theorem c10_scale_invariant (m e k : ℚ) (he : 0 < e) (hk : 0 < k) :
    evaluate_metabolism_probabilities (k * m) (k * e) =
      evaluate_metabolism_probabilities m e := by
  have hke : k * e ≠ 0 := by positivity
  have hratio : k * m / (k * e) = m / e := mul_div_mul_left m e hk.ne'
  unfold evaluate_metabolism_probabilities
  rw [if_neg hke, if_neg he.ne']
  simp only [hratio]

/-- C10 witness: measurements (3, 1) scaled by 2 give the same result. -/
theorem c10_scale_invariant_witness :
    (0 : ℚ) < 1 ∧ (0 : ℚ) < 2 ∧
      evaluate_metabolism_probabilities (2 * 3) (2 * 1) =
        evaluate_metabolism_probabilities 3 1 :=
  ⟨by norm_num, by norm_num, c10_scale_invariant 3 1 2 (by norm_num) (by norm_num)⟩

end MethadoneMonitoring
